import Mathlib

/-!
Verification of `examples/peripheral/peripheral.c` from the bluez_inc
repository: a BLE peripheral session built on the binc library.  The
example's callbacks and its `main` are embedded shallowly: each library
call the example issues is recorded as an `Event`, the four global
pointers (`agent`, `app`, `advertisement`, `default_adapter`) become a
`SessionState` of nullness flags, and the GATT value store of the
application is an association list.  Library code (adapter.c,
application.c, agent.c) is not part of the sources under verification;
where a claim depends on its behaviour the model follows the spec and is
marked `Modelled from the spec:`.
-/

namespace Peripheral

/-- Connection states of a remote `Device`, as in the binc `ConnectionState`
enum (`BINC_DISCONNECTED`, `BINC_CONNECTED`, `BINC_CONNECTING`,
`BINC_DISCONNECTING`). -/
inductive ConnectionState where
  | disconnected
  | connected
  | connecting
  | disconnecting
deriving DecidableEq, Repr

/-- A remote central device: address, name, connection state and bonding
state, per the binc `Device` object. -/
structure Device where
  address : String
  name : String
  connectionState : ConnectionState
  bonded : Bool
deriving DecidableEq, Repr

/-- `binc_device_get_connection_state`: the device's connection state. -/
def binc_device_get_connection_state (device : Device) : ConnectionState :=
  device.connectionState

/-- Every observable action the example performs, in program order: library
calls issued by `peripheral.c`, log statements, and loop control. -/
inductive Event where
  | logDeviceInfo
  | logCentralState
  | stopAdvertising
  | startAdvertising
  | freeAgent
  | unregisterApplication
  | freeApplication
  | freeAdvertisement
  | freeAdapter
  | quitLoop
  | logReceivedSigint
  | getDbusConnection
  | installSigintHandler
  | newMainLoop
  | getDefaultAdapter
  | logUsingAdapter
  | setPoweredStateCb
  | getPoweredState
  | powerOn
  | createAgent
  | setRequestAuthorizationCb
  | setRequestPasskeyCb
  | setRemoteCentralCb
  | createAdvertisement
  | advSetLocalName
  | advSetSecondaryChannel
  | advSetInterval
  | advSetTxPower
  | advSetServices
  | createApplication
  | addService
  | addCharacteristic
  | addDescriptor
  | setDescValue
  | setCharReadCb
  | setCharWriteCb
  | setCharStartNotifyCb
  | setCharStopNotifyCb
  | setCharUpdatedCb
  | registerApplication
  | logNoAdapter
  | addTimeoutSeconds (seconds : Nat)
  | runLoop
  | observePoweredTrue
  | unrefLoop
  | closeDbus
  | returnZero
deriving DecidableEq, Repr

/-- `on_central_state_changed`: logs the device, then reads its connection
state; on `BINC_CONNECTED` issues `binc_adapter_stop_advertising`, on
`BINC_DISCONNECTED` issues `binc_adapter_start_advertising`, otherwise
issues nothing. -/
def on_central_state_changed (device : Device) : List Event :=
  [Event.logDeviceInfo, Event.logCentralState] ++
  (match binc_device_get_connection_state device with
   | ConnectionState.connected => [Event.stopAdvertising]
   | ConnectionState.disconnected => [Event.startAdvertising]
   | _ => [])

/-- C1: on every central-state-changed event, Connected issues exactly one
stop_advertising call and no start, Disconnected exactly one start and no
stop, and Connecting/Disconnecting issue no advertising call at all. -/
theorem central_state_changed_advertising_policy (device : Device) :
    (on_central_state_changed device).count Event.stopAdvertising =
      (if binc_device_get_connection_state device = ConnectionState.connected
        then 1 else 0) ∧
    (on_central_state_changed device).count Event.startAdvertising =
      (if binc_device_get_connection_state device = ConnectionState.disconnected
        then 1 else 0) := by
  rcases device with ⟨addr, nm, st, bd⟩
  cases st <;> simp [on_central_state_changed, binc_device_get_connection_state,
    List.count_cons]

/-- Nullness of the four global pointers of `peripheral.c`
(`agent`, `app`, `advertisement`, `default_adapter`): a field is `true`
exactly when the pointer is non-NULL. -/
structure SessionState where
  agent : Bool
  app : Bool
  advertisement : Bool
  adapter : Bool
deriving DecidableEq, Repr

/-- The state after `main`'s setup succeeded: all four globals non-NULL. -/
def fullSession : SessionState :=
  { agent := true, app := true, advertisement := true, adapter := true }

/-- The state when no adapter was found: everything NULL. -/
def emptySession : SessionState :=
  { agent := false, app := false, advertisement := false, adapter := false }

/-- `callback`, the shutdown sequence: free the agent and NULL it; unregister
and free the application and NULL it; stop advertising and free the
advertisement (the source does not NULL the `advertisement` pointer);
free the adapter and NULL it; quit the main loop.  Each step is guarded by
a NULL check on the corresponding global. -/
def callback (s : SessionState) : SessionState × List Event :=
  let (s1, t1) :=
    if s.agent then ({ s with agent := false }, [Event.freeAgent])
    else (s, [])
  let (s2, t2) :=
    if s1.app then
      ({ s1 with app := false },
       [Event.unregisterApplication, Event.freeApplication])
    else (s1, [])
  let (s3, t3) :=
    if s2.advertisement then
      (s2, [Event.stopAdvertising, Event.freeAdvertisement])
    else (s2, [])
  let (s4, t4) :=
    if s3.adapter then ({ s3 with adapter := false }, [Event.freeAdapter])
    else (s3, [])
  (s4, t1 ++ t2 ++ t3 ++ t4 ++ [Event.quitLoop])

/-- The timeout handler installed by `g_timeout_add_seconds(600, callback,
loop)` is `callback` itself. -/
def timeoutHandler : SessionState → SessionState × List Event :=
  callback

/-- The number of seconds passed to `g_timeout_add_seconds` in `main`. -/
def timeoutSeconds : Nat := 600

/-- `cleanup_handler`: on SIGINT, log the signal and run `callback`; on any
other signal number, do nothing. -/
def cleanup_handler (signo : Int) (s : SessionState) :
    SessionState × List Event :=
  if signo = 2 then
    let r := callback s
    (r.1, Event.logReceivedSigint :: r.2)
  else (s, [])

/-- The teardown steps of the shutdown sequence, distinguished from log
output. -/
def isTeardownStep : Event → Bool
  | Event.freeAgent => true
  | Event.unregisterApplication => true
  | Event.freeApplication => true
  | Event.stopAdvertising => true
  | Event.freeAdvertisement => true
  | Event.freeAdapter => true
  | Event.quitLoop => true
  | _ => false

/-- The canonical full shutdown order of the teardown steps. -/
def fullShutdownOrder : List Event :=
  [Event.freeAgent, Event.unregisterApplication, Event.freeApplication,
   Event.stopAdvertising, Event.freeAdvertisement, Event.freeAdapter,
   Event.quitLoop]

/-- C2: the session is bounded by a 600-second timeout whose handler is the
shutdown sequence; on the fully-initialized session the sequence performs
exactly, and in this order: free agent, unregister and free application,
stop advertising and free advertisement, free adapter, quit the loop — so
Agent and Application are torn down before Advertisement, and
Advertisement before Adapter; and on any session state the steps performed
are a subsequence of that order. -/
theorem shutdown_runs_in_dependency_order :
    timeoutSeconds = 600 ∧
    (timeoutHandler fullSession).2 = fullShutdownOrder ∧
    ∀ s : SessionState, ((timeoutHandler s).2).Sublist fullShutdownOrder := by
  refine ⟨rfl, by decide, ?_⟩
  intro s
  rcases s with ⟨ag, ap, ad, da⟩
  cases ag <;> cases ap <;> cases ad <;> cases da <;> decide

/-- C3: the shutdown sequence is not idempotent.  After one shutdown the
`advertisement` pointer is still non-NULL (the source never clears it), so
a second invocation issues `stop_advertising` on the already-freed (NULL)
adapter and frees the advertisement a second time: across the two
invocations `freeAdvertisement` is issued twice for the single
advertisement ever allocated. -/
theorem second_shutdown_double_frees_advertisement :
    (callback fullSession).1.advertisement = true ∧
    (callback fullSession).1.adapter = false ∧
    (callback (callback fullSession).1).2 =
      [Event.stopAdvertising, Event.freeAdvertisement, Event.quitLoop] ∧
    ((callback fullSession).2 ++ (callback (callback fullSession).1).2).count
      Event.freeAdvertisement = 2 ∧
    (callback (callback fullSession).1).1 = (callback fullSession).1 := by
  decide

/-- C4: receiving SIGINT (signal number 2) runs a shutdown identical to the
timeout-driven one: on every session state, the same end state and the same
sequence of teardown steps (the interrupt path additionally logs the
signal, which is not a teardown step). -/
theorem sigint_shutdown_equals_timeout_shutdown (s : SessionState) :
    (cleanup_handler 2 s).1 = (timeoutHandler s).1 ∧
    (cleanup_handler 2 s).2.filter isTeardownStep =
      (timeoutHandler s).2.filter isTeardownStep := by
  rcases s with ⟨ag, ap, ad, da⟩
  cases ag <;> cases ap <;> cases ad <;> cases da <;> decide

/-- The straight-line call sequence of `main` up to `g_main_loop_run`, as a
function of whether `binc_adapter_get_default` found an adapter and of the
powered state that `binc_adapter_get_powered_state` reads.  Asynchronous
callbacks (such as the powered-state callback) can only run once the main
loop is running, so no `observePoweredTrue` event can occur in this prefix;
per the spec, `power_on` only issues the RPC and the state change is
observed later through the callback. -/
def mainSetup (adapterFound : Bool) (initiallyPowered : Bool) : List Event :=
  [Event.getDbusConnection, Event.installSigintHandler, Event.newMainLoop,
   Event.getDefaultAdapter] ++
  (if adapterFound then
    [Event.logUsingAdapter, Event.setPoweredStateCb, Event.getPoweredState] ++
    (if initiallyPowered then [] else [Event.powerOn]) ++
    [Event.createAgent, Event.setRequestAuthorizationCb,
     Event.setRequestPasskeyCb,
     Event.setRemoteCentralCb,
     Event.createAdvertisement, Event.advSetLocalName,
     Event.advSetSecondaryChannel, Event.advSetInterval, Event.advSetTxPower,
     Event.advSetServices,
     Event.startAdvertising,
     Event.createApplication, Event.addService, Event.addCharacteristic,
     Event.addDescriptor, Event.setDescValue,
     Event.setCharReadCb, Event.setCharWriteCb, Event.setCharStartNotifyCb,
     Event.setCharStopNotifyCb, Event.setCharUpdatedCb,
     Event.registerApplication]
   else
    [Event.logNoAdapter]) ++
  [Event.addTimeoutSeconds 600, Event.runLoop]

/-- Checks, scanning left to right with `seen` recording whether a
powered=true observation has already occurred, that every
`registerApplication` event is strictly preceded by an
`observePoweredTrue` event. -/
def registrationGated : List Event → Bool → Bool
  | [], _ => true
  | e :: rest, seen =>
    if e = Event.registerApplication then
      seen && registrationGated rest seen
    else
      registrationGated rest (seen || e = Event.observePoweredTrue)

/-- C5 counterexample: in the run that finds an adapter that is initially
unpowered, `main` issues `register_application` during straight-line setup,
before the powered-state callback can fire — even when the callback's
powered=true observation eventually arrives once the loop runs, it comes
after registration, so the claimed gating is violated. -/
theorem registration_not_gated_on_powered_observation :
    registrationGated
      (mainSetup true false ++ [Event.observePoweredTrue]) false = false := by
  decide

/-- C5 amended: registration is issued unconditionally during setup: it
appears in the setup trace whether or not the adapter was initially
powered; when the adapter is unpowered, `power_on` is issued before
registration, but no powered=true observation occurs anywhere in the setup
trace (the callback only fires once the loop runs). -/
theorem registration_follows_power_on_without_waiting :
    Event.registerApplication ∈ mainSetup true false ∧
    Event.registerApplication ∈ mainSetup true true ∧
    Event.powerOn ∈ mainSetup true false ∧
    (mainSetup true false).indexOf Event.powerOn <
      (mainSetup true false).indexOf Event.registerApplication ∧
    Event.observePoweredTrue ∉ mainSetup true false ∧
    Event.observePoweredTrue ∉ mainSetup true true := by
  decide

/-- The complete no-adapter run: setup (which logs the diagnostic and skips
all object creation), then the loop runs until the 600-second timeout fires
the shutdown `callback` on the all-NULL state, then `main` unrefs the loop,
closes the bus connection and returns 0. -/
def noAdapterRun : List Event :=
  mainSetup false false ++ (callback emptySession).2 ++
  [Event.unrefLoop, Event.closeDbus, Event.returnZero]

/-- C7: when no usable adapter is found, the run logs the diagnostic, never
creates an agent, advertisement or application, never registers or starts
serving anything, and terminates: it ends by returning 0. -/
theorem no_adapter_aborts_without_serving :
    Event.logNoAdapter ∈ noAdapterRun ∧
    Event.createAgent ∉ noAdapterRun ∧
    Event.createAdvertisement ∉ noAdapterRun ∧
    Event.createApplication ∉ noAdapterRun ∧
    Event.registerApplication ∉ noAdapterRun ∧
    Event.startAdvertising ∉ noAdapterRun ∧
    noAdapterRun.getLast? = some Event.returnZero := by
  decide

/-- A characteristic value: a byte string, each entry below 256. -/
abbrev ByteArr := List Nat

/-- The health-thermometer service UUID from `peripheral.c`. -/
def HTS_SERVICE_UUID : String := "00001809-0000-1000-8000-00805f9b34fb"

/-- The temperature-measurement characteristic UUID from `peripheral.c`. -/
def TEMPERATURE_CHAR_UUID : String := "00002a1c-0000-1000-8000-00805f9b34fb"

/-- The characteristic-user-description descriptor UUID from
`peripheral.c`. -/
def CUD_CHAR : String := "00002901-0000-1000-8000-00805f9b34fb"

/-- The `BLUEZ_ERROR_REJECTED` GATT rejection code returned by the read
callback for unknown attributes. -/
def BLUEZ_ERROR_REJECTED : String := "org.bluez.Error.Rejected"

/-- The GATT value store of the application: characteristic values keyed by
(service UUID, characteristic UUID).  Modelled from the spec: the
Application owns the Attribute Tree and its stored values; the stored
value is the single source of truth read back by read requests. -/
structure AppState where
  charValues : List ((String × String) × ByteArr)
deriving DecidableEq, Repr

/-- `binc_application_set_char_value`.  Modelled from the spec:
`set_characteristic_value(service_uuid, char_uuid, bytes)` sets the stored
value directly. -/
def binc_application_set_char_value (st : AppState)
    (service_uuid char_uuid : String) (value : ByteArr) : AppState :=
  { charValues := ((service_uuid, char_uuid), value) :: st.charValues }

/-- The stored value of a characteristic, most recent write first.
Modelled from the spec: the stored value is what a read request returns. -/
def get_char_value (st : AppState) (service_uuid char_uuid : String) :
    Option ByteArr :=
  (st.charValues.find? (fun p => p.1 = (service_uuid, char_uuid))).map
    (fun p => p.2)

/-- The fixed temperature-measurement bytes that `on_local_char_read`
installs before serving a read. -/
def temperatureBytes : ByteArr :=
  [0x06, 0x6f, 0x01, 0x00, 0xff, 0xe6, 0x07, 0x03, 0x03, 0x10, 0x04, 0x00,
   0x01]

/-- `on_local_char_read`: for the health-thermometer service with the
temperature characteristic it sets the characteristic value to the fixed
measurement bytes and accepts (`NULL`); for every other pair it returns
`BLUEZ_ERROR_REJECTED` without touching the store. -/
def on_local_char_read (st : AppState) (service_uuid char_uuid : String) :
    AppState × Option String :=
  if service_uuid = HTS_SERVICE_UUID ∧ char_uuid = TEMPERATURE_CHAR_UUID then
    (binc_application_set_char_value st service_uuid char_uuid
      temperatureBytes, none)
  else
    (st, some BLUEZ_ERROR_REJECTED)

/-- A read request routed through the application.  Modelled from the spec:
the daemon's read is answered by invoking the registered read callback; a
rejection aborts the read with that error, otherwise the (possibly
updated) stored value is served. -/
def readCharacteristic (st : AppState) (service_uuid char_uuid : String) :
    AppState × Except String (Option ByteArr) :=
  match on_local_char_read st service_uuid char_uuid with
  | (st2, none) =>
      (st2, Except.ok (get_char_value st2 service_uuid char_uuid))
  | (st2, some err) => (st2, Except.error err)

/-- C6 counterexample: store value `[0]` for the temperature
characteristic, then read it back: the read callback overwrites the store
with the fixed measurement bytes and the read returns those bytes, not
`[0]`; the state is mutated by the read. -/
theorem read_after_set_does_not_return_stored_value :
    (readCharacteristic
        (binc_application_set_char_value { charValues := [] }
          HTS_SERVICE_UUID TEMPERATURE_CHAR_UUID [0])
        HTS_SERVICE_UUID TEMPERATURE_CHAR_UUID).2 =
      Except.ok (some temperatureBytes) ∧
    temperatureBytes ≠ ([0] : ByteArr) ∧
    (readCharacteristic
        (binc_application_set_char_value { charValues := [] }
          HTS_SERVICE_UUID TEMPERATURE_CHAR_UUID [0])
        HTS_SERVICE_UUID TEMPERATURE_CHAR_UUID).1 ≠
      binc_application_set_char_value { charValues := [] }
        HTS_SERVICE_UUID TEMPERATURE_CHAR_UUID [0] := by
  refine ⟨?_, by decide, by decide⟩
  simp [readCharacteristic, on_local_char_read,
    binc_application_set_char_value, get_char_value]

/-- C6 amended: for the temperature characteristic, a read after
`set_characteristic_value st v` mutates the store and yields the fixed
measurement bytes regardless of `v`; for every other pair, the read
callback rejects with the GATT rejection code and leaves the state — and
hence the previously stored `v` — unchanged. -/
theorem read_serves_fixed_bytes_and_rejections_preserve_state
    (st : AppState) (v : ByteArr) (s c : String) :
    (readCharacteristic
        (binc_application_set_char_value st HTS_SERVICE_UUID
          TEMPERATURE_CHAR_UUID v)
        HTS_SERVICE_UUID TEMPERATURE_CHAR_UUID).2 =
      Except.ok (some temperatureBytes) ∧
    (¬(s = HTS_SERVICE_UUID ∧ c = TEMPERATURE_CHAR_UUID) →
      readCharacteristic (binc_application_set_char_value st s c v) s c =
        (binc_application_set_char_value st s c v,
         Except.error BLUEZ_ERROR_REJECTED) ∧
      get_char_value (binc_application_set_char_value st s c v) s c =
        some v) := by
  constructor
  · simp [readCharacteristic, on_local_char_read,
      binc_application_set_char_value, get_char_value]
  · intro h
    constructor
    · simp [readCharacteristic, on_local_char_read, h]
    · simp [binc_application_set_char_value, get_char_value]

/-- C6 witness. -/
theorem read_serves_fixed_bytes_witness :
    ¬(CUD_CHAR = HTS_SERVICE_UUID ∧ CUD_CHAR = TEMPERATURE_CHAR_UUID) ∧
    readCharacteristic
        (binc_application_set_char_value { charValues := [] } CUD_CHAR
          CUD_CHAR [0]) CUD_CHAR CUD_CHAR =
      (binc_application_set_char_value { charValues := [] } CUD_CHAR
        CUD_CHAR [0], Except.error BLUEZ_ERROR_REJECTED) := by
  refine ⟨by decide, ?_⟩
  exact ((read_serves_fixed_bytes_and_rejections_preserve_state
    { charValues := [] } [0] CUD_CHAR CUD_CHAR).2 (by decide)).1

/-- C9: the read callback accepts exactly the health-thermometer service
paired with the temperature characteristic; for every other pair it
returns the GATT rejection code and leaves the store untouched. -/
theorem read_callback_serves_only_temperature_pair (st : AppState)
    (s c : String) :
    ((on_local_char_read st s c).2 = none ↔
      s = HTS_SERVICE_UUID ∧ c = TEMPERATURE_CHAR_UUID) ∧
    (¬(s = HTS_SERVICE_UUID ∧ c = TEMPERATURE_CHAR_UUID) →
      on_local_char_read st s c = (st, some BLUEZ_ERROR_REJECTED)) := by
  constructor
  · constructor
    · intro h
      by_contra hne
      simp [on_local_char_read, hne] at h
    · intro h
      simp [on_local_char_read, h]
  · intro h
    simp [on_local_char_read, h]

/-- C9 witness. -/
theorem read_callback_rejects_cud_witness :
    ¬(HTS_SERVICE_UUID = HTS_SERVICE_UUID ∧
        CUD_CHAR = TEMPERATURE_CHAR_UUID) ∧
    on_local_char_read { charValues := [] } HTS_SERVICE_UUID CUD_CHAR =
      ({ charValues := [] }, some BLUEZ_ERROR_REJECTED) := by
  refine ⟨by decide, ?_⟩
  exact (read_callback_serves_only_temperature_pair { charValues := [] }
    HTS_SERVICE_UUID CUD_CHAR).2 (by decide)

/-- `on_request_authorization`: logs the device name and returns `TRUE`
unconditionally. -/
def on_request_authorization (device : Device) : Bool :=
  true

/-- `on_request_passkey`: `guint32 pass = 000000` then `fscanf(stdin, "%d",
&pass)`; when the scan fails the initial 0 is kept, otherwise the scanned
`int` is stored into the 32-bit unsigned `pass`; the value is returned
with no range check.  The scanned input is `some n` for a successful scan
of `n`, `none` for a failed scan. -/
def on_request_passkey (input : Option Int) : Nat :=
  match input with
  | some n => (n % (2 ^ 32 : Int)).toNat
  | none => 0

/-- The passkey delivered to the daemon's pairing RPC.  Modelled from the
spec: the Session Controller forwards the callback's value unmodified to
the pairing RPC (the agent plumbing is library code outside the sources
under verification). -/
def pairingRpcPasskey (passkey : Nat) : Nat :=
  passkey

/-- C8 counterexample: a successful scan of 1234567 makes the passkey
callback return 1234567 — not a value in 0..999999 and not a failure — and
that out-of-range value is forwarded unmodified to the pairing RPC. -/
theorem passkey_out_of_range_returned_as_success :
    on_request_passkey (some 1234567) = 1234567 ∧
    ¬(1234567 ≤ 999999) ∧
    pairingRpcPasskey (on_request_passkey (some 1234567)) = 1234567 := by
  refine ⟨?_, by decide, ?_⟩ <;> decide

/-- C8 amended: the passkey callback returns the scanned value reduced to
32 bits with no range validation and no failure channel (a failed scan
yields the initial 0, itself a "success" value), and whatever value it
returns is forwarded unmodified to the pairing RPC. -/
theorem passkey_returned_unvalidated_and_forwarded_unmodified :
    on_request_passkey none = 0 ∧
    (∀ n : Int, on_request_passkey (some n) = (n % (2 ^ 32 : Int)).toNat) ∧
    ∀ input : Option Int,
      on_request_passkey input < 2 ^ 32 ∧
      pairingRpcPasskey (on_request_passkey input) =
        on_request_passkey input := by
  refine ⟨rfl, fun n => rfl, ?_⟩
  intro input
  refine ⟨?_, rfl⟩
  match input with
  | none => decide
  | some n =>
    have hpos : (0 : Int) < 2 ^ 32 := by decide
    have hlt := Int.emod_lt_of_pos n hpos
    have hge := Int.emod_nonneg n (by decide : (2 ^ 32 : Int) ≠ 0)
    simp only [on_request_passkey]
    omega

/-- C10: the authorization callback grants authorization unconditionally:
for every Device — any address, name, connection state or bonding state —
it returns `TRUE`. -/
theorem authorization_always_granted (device : Device) :
    on_request_authorization device = true :=
  rfl

end Peripheral
